import Mathlib

/-!
Shallow embedding of the `tidal-song-collection-extractor` repository
(`src/tidal_extractor/formatter.py` and `src/tidal_extractor/collector.py`)
together with proofs of the specification claims.

Python machine integers are arbitrary precision, so they are modelled as
`Int`/`Nat` directly.  Python exceptions are modelled with `Except`, where
the exception payload is abstracted as a `String` message.  The decimal
conversions `str(int)` / `int(str)` used by the CSV codec and the track-id
coercion are modelled by `renderInt` / `parseInt?` below.
-/

namespace TidalExtractor

/-- Exception payload thrown by the upstream API client or by `int()`. -/
abbrev Exn := String

/-! ### Decimal rendering and parsing (Python `str` / `int` on integers) -/

/-- Character for the decimal digit `d % 10`. -/
def digitChar (d : Nat) : Char := Char.ofNat (48 + d % 10)

/-- Decimal digits of a natural number, most significant first.
`fuel` bounds the recursion depth; `fuel = n + 1` is always enough. -/
def natDigitsAux : Nat → Nat → List Char
  | 0, _ => []
  | fuel + 1, n =>
    if n < 10 then [digitChar n]
    else natDigitsAux fuel (n / 10) ++ [digitChar (n % 10)]

/-- Decimal digits of a natural number, most significant first. -/
def natDigits (n : Nat) : List Char := natDigitsAux (n + 1) n

/-- Python `str` applied to an integer. -/
def renderInt : Int → String
  | .ofNat n => ⟨natDigits n⟩
  | .negSucc n => ⟨'-' :: natDigits (n + 1)⟩

/-- Numeric value of a decimal digit character, `none` on a non-digit. -/
def digitVal? (c : Char) : Option Nat :=
  if 48 ≤ c.toNat ∧ c.toNat ≤ 57 then some (c.toNat - 48) else none

/-- Accumulate the value of a digit string; `none` if any char is not a digit. -/
def parseDigits (cs : List Char) : Option Nat :=
  cs.foldl (fun acc c => acc.bind fun a => (digitVal? c).map fun d => a * 10 + d)
    (some 0)

/-- Parse a non-empty all-digit character list. -/
def parseNat? (cs : List Char) : Option Nat :=
  if cs.isEmpty then none else parseDigits cs

/-- Python `int` applied to a string: an optional sign followed by at least
one decimal digit; any other shape raises `ValueError` (here: `none`). -/
def parseInt? (s : String) : Option Int :=
  match s.data with
  | [] => none
  | c :: cs =>
    if c = '-' then (parseNat? cs).map fun n => -(Int.ofNat n)
    else if c = '+' then (parseNat? cs).map fun n => Int.ofNat n
    else (parseNat? (c :: cs)).map fun n => Int.ofNat n

theorem digitVal?_digitChar_of_lt (d : Nat) (h : d < 10) :
    digitVal? (digitChar d) = some d := by
  unfold digitChar
  rw [Nat.mod_eq_of_lt h]
  interval_cases d <;> decide

theorem digitChar_ne_sign (d : Nat) (h : d < 10) :
    digitChar d ≠ '-' ∧ digitChar d ≠ '+' := by
  unfold digitChar
  rw [Nat.mod_eq_of_lt h]
  interval_cases d <;> exact ⟨by decide, by decide⟩

theorem parseDigits_snoc (l : List Char) (c : Char) :
    parseDigits (l ++ [c]) =
      (parseDigits l).bind fun a => (digitVal? c).map fun d => a * 10 + d := by
  simp [parseDigits, List.foldl_append]

theorem parseDigits_natDigitsAux (fuel n : Nat) (h : n < fuel) :
    parseDigits (natDigitsAux fuel n) = some n := by
  induction fuel generalizing n with
  | zero => omega
  | succ fuel ih =>
    unfold natDigitsAux
    by_cases h10 : n < 10
    · rw [if_pos h10]
      unfold parseDigits
      simp [digitVal?_digitChar_of_lt n h10]
    · rw [if_neg h10, parseDigits_snoc, ih (n / 10) (by omega),
        digitVal?_digitChar_of_lt (n % 10) (Nat.mod_lt _ (by omega))]
      show some (n / 10 * 10 + n % 10) = some n
      exact congrArg some (by omega)

theorem parseDigits_natDigits (n : Nat) : parseDigits (natDigits n) = some n :=
  parseDigits_natDigitsAux (n + 1) n (Nat.lt_succ_self n)

theorem natDigitsAux_ne_nil (fuel n : Nat) (h : 0 < fuel) :
    natDigitsAux fuel n ≠ [] := by
  cases fuel with
  | zero => omega
  | succ fuel =>
    unfold natDigitsAux
    by_cases h10 : n < 10
    · rw [if_pos h10]; simp
    · rw [if_neg h10]; simp

theorem natDigits_ne_nil (n : Nat) : natDigits n ≠ [] :=
  natDigitsAux_ne_nil (n + 1) n (Nat.succ_pos n)

theorem parseNat?_natDigits (n : Nat) : parseNat? (natDigits n) = some n := by
  unfold parseNat?
  rw [if_neg (by simpa using natDigits_ne_nil n)]
  exact parseDigits_natDigits n

theorem natDigitsAux_head (fuel n : Nat) (h : n < fuel) :
    ∃ d rest, d < 10 ∧ natDigitsAux fuel n = digitChar d :: rest := by
  induction fuel generalizing n with
  | zero => omega
  | succ fuel ih =>
    unfold natDigitsAux
    by_cases h10 : n < 10
    · exact ⟨n, [], h10, by rw [if_pos h10]⟩
    · obtain ⟨d, rest, hd, heq⟩ := ih (n / 10) (by omega)
      exact ⟨d, rest ++ [digitChar (n % 10)], hd, by rw [if_neg h10, heq]; rfl⟩

theorem natDigits_head (n : Nat) :
    ∃ d rest, d < 10 ∧ natDigits n = digitChar d :: rest :=
  natDigitsAux_head (n + 1) n (Nat.lt_succ_self n)

theorem parseInt?_renderInt (i : Int) : parseInt? (renderInt i) = some i := by
  cases i with
  | ofNat n =>
    obtain ⟨d, rest, hd, heq⟩ := natDigits_head n
    show parseInt? ⟨natDigits n⟩ = some (.ofNat n)
    unfold parseInt?
    simp only [heq]
    rw [if_neg (digitChar_ne_sign d hd).1, if_neg (digitChar_ne_sign d hd).2,
      ← heq, parseNat?_natDigits]
    rfl
  | negSucc n =>
    show parseInt? ⟨'-' :: natDigits (n + 1)⟩ = some (.negSucc n)
    unfold parseInt?
    simp only [parseNat?_natDigits, String.data]
    rw [if_pos trivial]
    show some (-(Int.ofNat (n + 1))) = some (Int.negSucc n)
    exact congrArg some (by rw [Int.negSucc_eq, Int.ofNat_eq_natCast]; push_cast; ring)

theorem renderInt_ne_empty (i : Int) : renderInt i ≠ "" := by
  cases i with
  | ofNat n =>
    intro h
    exact natDigits_ne_nil n (congrArg String.data h)
  | negSucc n =>
    intro h
    exact List.cons_ne_nil _ _ (congrArg String.data h)

/-! ### `TrackFormatter.format_duration` (formatter.py lines 16-30) -/

/-- Python `f"{n:02d}"` for the values that occur here: left-pad a one-digit
non-negative number with a zero, otherwise plain decimal. -/
def pad2 (n : Int) : String :=
  if 0 ≤ n ∧ n < 10 then "0" ++ renderInt n else renderInt n

/-- `TrackFormatter.format_duration`: `None ↦ "Unknown"`, otherwise
`divmod(seconds, 60)` (floor division, i.e. `Int.ediv`/`Int.emod` for the
positive divisor 60) rendered as `f"{minutes}:{seconds:02d}"`. -/
def format_duration : Option Int → String
  | none => "Unknown"
  | some seconds => renderInt (seconds / 60) ++ ":" ++ pad2 (seconds % 60)

/-! ### Track data model -/

/-- The track dictionary built by the collector and by the CSV loader:
keys `id`, `title`, `artists`, `album`, `duration`.  `id` and `duration`
are `none` where the Python dict holds `None`. -/
structure Track where
  id : Option Int
  title : String
  artists : List String
  album : String
  duration : Option Int
  deriving Repr, DecidableEq

/-! ### CSV files (`formatter.py`) -/

/-- A CSV file as the `csv` module presents it: one header row of column
names, then one list of cells per data row.  Python's `csv` writer/reader
pair quotes and unquotes cell text transparently (including embedded
commas, quotes and newlines), so a cell is modelled by its string value. -/
structure CsvFile where
  header : List String
  rows : List (List String)
  deriving Repr, DecidableEq

/-- One written cell, from `_write_csv_format`'s row construction:
`artists` is joined with `", "`, `duration` stays in seconds (empty for
`None`), every other field is `track.get(field, "")` under `str`
rendering, so `id` is decimal or empty for `None`. -/
def cellOf (t : Track) (field : String) : String :=
  if field = "artists" then String.intercalate ", " t.artists
  else if field = "duration" then (t.duration.map renderInt).getD ""
  else if field = "id" then (t.id.map renderInt).getD ""
  else if field = "title" then t.title
  else if field = "album" then t.album
  else ""

/-- `TrackFormatter._write_csv_format` as a transformer of the abstract
file at the target path (`prev` is the file before the call, the result
the file after it): with an empty track list the function returns before
opening the file, leaving the path untouched; otherwise it overwrites the
path with a header row plus one row per track. -/
def write_csv_format (tracks : List Track) (csv_fields : List String)
    (prev : Option CsvFile) : Option CsvFile :=
  if tracks.isEmpty then prev
  else some ⟨csv_fields, tracks.map fun t => csv_fields.map (cellOf t)⟩

/-- `TrackFormatter.save_tracks_to_file`: defaults the field list to all
five columns and delegates to `_write_csv_format`. -/
def save_tracks_to_file (tracks : List Track) (csv_fields : Option (List String))
    (prev : Option CsvFile) : Option CsvFile :=
  write_csv_format tracks (csv_fields.getD ["id", "title", "artists", "album", "duration"]) prev

/-- The errors `load_tracks_from_csv` raises: `FileNotFoundError`, and
`ValueError` carrying its message. -/
inductive CsvError where
  | notFound
  | invalidFormat (msg : String)
  deriving Repr, DecidableEq

deriving instance DecidableEq for Except

/-- The `ValueError` message for a header missing `id` or `title`
(`f"CSV must contain at least 'id' and 'title' columns. Found: {reader.fieldnames}"`). -/
def requiredColumnsMsg (fieldnames : List String) : String :=
  "CSV must contain at least 'id' and 'title' columns. Found: " ++
    String.intercalate ", " fieldnames

/-- The `ValueError` message of Python `int()` on a non-numeric string. -/
def intErrorMsg (s : String) : String :=
  "invalid literal for int() with base 10: " ++ s

/-- Helper for `splitComma`: `acc` holds the current piece reversed. -/
def splitCommaAux : List Char → List Char → List String
  | [], acc => [⟨acc.reverse⟩]
  | c :: cs, acc =>
    if c = ',' then ⟨acc.reverse⟩ :: splitCommaAux cs []
    else splitCommaAux cs (c :: acc)

/-- Python `str.split(",")`: cut at every comma, keeping empty pieces
(`"".split(",") == [""]`, `"a,,b".split(",") == ["a", "", "b"]`). -/
def splitComma (s : String) : List String := splitCommaAux s.data []

/-- Python `str.strip()`: drop leading and trailing whitespace. -/
def strip (s : String) : String :=
  ⟨((s.data.dropWhile Char.isWhitespace).reverse.dropWhile Char.isWhitespace).reverse⟩

/-- `csv.DictReader` cell access for one row: the row dict maps each
header name to the cell at the same position (`dict(zip(fieldnames,
row))`, a later duplicate column overwriting an earlier one).  A column
past the end of a short row is treated as absent (Python stores the
restval `None` there, which `row.get` also reports as falsy; no file
written by this tool has such rows). -/
def lookupCell (header row : List String) (key : String) : Option String :=
  ((header.zip row).reverse.find? fun p => p.1 == key).map Prod.snd

/-- `int(row[key]) if row.get(key) else None` for `key ∈ {"id",
"duration"}`: an absent column or empty cell is `None`; any other cell
must parse as an integer, else `ValueError`. -/
def parseCell (header row : List String) (key : String) : Except CsvError (Option Int) :=
  match lookupCell header row key with
  | none => .ok none
  | some s =>
    if s = "" then .ok none
    else
      match parseInt? s with
      | some n => .ok (some n)
      | none => .error (.invalidFormat (intErrorMsg s))

/-- The artists cell decode:
`[a.strip() for a in row["artists"].split(",")] if row.get("artists") else []`. -/
def loadArtists (s : String) : List String :=
  if s = "" then [] else (splitComma s).map strip

/-- The body of the `for row in reader` loop of `load_tracks_from_csv`:
build one track dict, in the dict literal's evaluation order (the `id`
cell is coerced first, so its `ValueError` precedes `duration`'s). -/
def loadRow (header row : List String) : Except CsvError Track :=
  match parseCell header row "id" with
  | .error e => .error e
  | .ok id =>
    let title := (lookupCell header row "title").getD ""
    let artists :=
      match lookupCell header row "artists" with
      | none => []
      | some s => loadArtists s
    let album := (lookupCell header row "album").getD ""
    match parseCell header row "duration" with
    | .error e => .error e
    | .ok duration =>
      .ok { id := id, title := title, artists := artists, album := album,
            duration := duration }

/-- `TrackFormatter.load_tracks_from_csv` over the abstract file at the
path (`none` = the file does not exist): raise `FileNotFoundError` for a
missing file, `ValueError` when the header lacks `id` or `title`, then
convert the rows in order, propagating the first row error. -/
def load_tracks_from_csv (file : Option CsvFile) : Except CsvError (List Track) :=
  match file with
  | none => .error .notFound
  | some f =>
    if "id" ∈ f.header ∧ "title" ∈ f.header then
      f.rows.mapM (loadRow f.header)
    else
      .error (.invalidFormat (requiredColumnsMsg f.header))

theorem find?_append_of_none {α} (p : α → Bool) (l₁ l₂ : List α) (h : l₁.find? p = none) :
    (l₁ ++ l₂).find? p = l₂.find? p := by
  induction l₁ with
  | nil => rfl
  | cons a l ih =>
    cases hp : p a with
    | true => rw [List.find?_cons_of_pos _ hp] at h; exact absurd h (by simp)
    | false =>
      rw [List.find?_cons_of_neg _ (by simp [hp])] at h
      show ((a :: (l ++ l₂)).find? p) = l₂.find? p
      rw [List.find?_cons_of_neg _ (by simp [hp])]
      exact ih h

theorem find?_append_of_some {α} (p : α → Bool) (l₁ l₂ : List α) (a : α)
    (h : l₁.find? p = some a) : (l₁ ++ l₂).find? p = some a := by
  induction l₁ with
  | nil => exact absurd h (by simp)
  | cons b l ih =>
    cases hp : p b with
    | true =>
      rw [List.find?_cons_of_pos _ hp] at h
      show ((b :: (l ++ l₂)).find? p) = some a
      rw [List.find?_cons_of_pos _ hp]
      exact h
    | false =>
      rw [List.find?_cons_of_neg _ (by simp [hp])] at h
      show ((b :: (l ++ l₂)).find? p) = some a
      rw [List.find?_cons_of_neg _ (by simp [hp])]
      exact ih h

/-- A row written as `fields.map g` reads back, under any key, the value
`g key` when the key is one of the columns and nothing otherwise. -/
theorem lookupCell_map (g : String → String) (fields : List String) (key : String) :
    lookupCell fields (fields.map g) key = if key ∈ fields then some (g key) else none := by
  induction fields with
  | nil => simp [lookupCell]
  | cons f fs ih =>
    unfold lookupCell at ih ⊢
    simp only [List.map_cons, List.zip_cons_cons, List.reverse_cons]
    by_cases hk : key ∈ fs
    · rw [if_pos hk] at ih
      obtain ⟨pr, hpr, hsnd⟩ :
          ∃ pr, (fs.zip (fs.map g)).reverse.find? (fun p => p.1 == key) = some pr ∧
            pr.2 = g key := by
        cases hf : (fs.zip (fs.map g)).reverse.find? (fun p => p.1 == key) with
        | none => rw [hf] at ih; exact absurd ih (by simp)
        | some pr =>
          rw [hf] at ih
          exact ⟨pr, rfl, by simpa using ih⟩
      rw [find?_append_of_some _ _ _ _ hpr]
      simp [hsnd, List.mem_cons_of_mem f hk]
    · rw [if_neg hk] at ih
      have h2 : (fs.zip (fs.map g)).reverse.find? (fun p => p.1 == key) = none := by
        cases hf : (fs.zip (fs.map g)).reverse.find? (fun p => p.1 == key) with
        | none => rfl
        | some pr => rw [hf] at ih; exact absurd ih (by simp)
      rw [find?_append_of_none _ _ _ h2]
      by_cases hf : key = f
      · subst hf
        rw [List.find?_cons_of_pos _ (by simp)]
        simp
      · rw [List.find?_cons_of_neg _ (by simp [Ne.symm hf])]
        simp [hf, hk]

/-- The claim's normalization of one track under a write restricted to
`fields`: an included field comes back through the comma-and-space artist
join then split-and-strip, and through decimal render/parse (the identity
on `id` and `duration`); an excluded field takes its default
(empty string / empty sequence / `none`). -/
def readback (fields : List String) (t : Track) : Track where
  id := if "id" ∈ fields then t.id else none
  title := if "title" ∈ fields then t.title else ""
  artists :=
    if "artists" ∈ fields then loadArtists (String.intercalate ", " t.artists) else []
  album := if "album" ∈ fields then t.album else ""
  duration := if "duration" ∈ fields then t.duration else none

theorem except_ok_bind {ε α β} (a : α) (f : α → Except ε β) :
    (Except.ok a : Except ε α) >>= f = f a := rfl

theorem parseCell_render (fields row : List String) (key : String) (o : Option Int)
    (h : lookupCell fields row key = some ((o.map renderInt).getD "")) :
    parseCell fields row key = .ok o := by
  unfold parseCell
  rw [h]
  cases o with
  | none => simp
  | some n => simp [renderInt_ne_empty n, parseInt?_renderInt]

theorem parseCell_absent (fields row : List String) (key : String)
    (h : lookupCell fields row key = none) :
    parseCell fields row key = .ok none := by
  unfold parseCell
  rw [h]

/-- One written row loads back as the claim's normalization of the track. -/
theorem loadRow_writeRow (fields : List String) (t : Track) :
    loadRow fields (fields.map (cellOf t)) = .ok (readback fields t) := by
  have hid : parseCell fields (fields.map (cellOf t)) "id"
      = .ok (if "id" ∈ fields then t.id else none) := by
    by_cases h : "id" ∈ fields
    · rw [if_pos h]
      exact parseCell_render _ _ _ _ (by rw [lookupCell_map, if_pos h]; rfl)
    · rw [if_neg h]
      exact parseCell_absent _ _ _ (by rw [lookupCell_map, if_neg h])
  have hdur : parseCell fields (fields.map (cellOf t)) "duration"
      = .ok (if "duration" ∈ fields then t.duration else none) := by
    by_cases h : "duration" ∈ fields
    · rw [if_pos h]
      exact parseCell_render _ _ _ _ (by rw [lookupCell_map, if_pos h]; rfl)
    · rw [if_neg h]
      exact parseCell_absent _ _ _ (by rw [lookupCell_map, if_neg h])
  unfold loadRow
  rw [hid, hdur, lookupCell_map, lookupCell_map, lookupCell_map]
  unfold readback
  by_cases ht : "title" ∈ fields <;> by_cases ha : "artists" ∈ fields <;>
    by_cases hal : "album" ∈ fields <;>
    simp [ht, ha, hal, cellOf]

/-- The written rows load back, in order, as the normalized tracks. -/
theorem mapM_loadRow_writeRows (fields : List String) (tracks : List Track) :
    (tracks.map fun t => fields.map (cellOf t)).mapM (loadRow fields)
      = .ok (tracks.map (readback fields)) := by
  induction tracks with
  | nil => rfl
  | cons t ts ih =>
    simp only [List.map_cons, List.mapM_cons, loadRow_writeRow, ih, except_ok_bind]
    rfl

/-- Loading a file that `_write_csv_format` produced from a non-empty
track list and a field list containing `id` and `title` succeeds and
yields the normalized tracks. -/
theorem csv_round_trip (tracks : List Track) (fields : List String)
    (prev : Option CsvFile) (hne : tracks ≠ [])
    (hid : "id" ∈ fields) (htitle : "title" ∈ fields) :
    load_tracks_from_csv (write_csv_format tracks fields prev)
      = .ok (tracks.map (readback fields)) := by
  unfold write_csv_format
  rw [if_neg (by simpa using hne)]
  show (if "id" ∈ fields ∧ "title" ∈ fields then
      (tracks.map fun t => fields.map (cellOf t)).mapM (loadRow fields)
    else Except.error (.invalidFormat (requiredColumnsMsg fields)))
    = .ok (tracks.map (readback fields))
  rw [if_pos ⟨hid, htitle⟩]
  exact mapM_loadRow_writeRows fields tracks

/-! ### Collector (`collector.py`)

Upstream `tidalapi` calls are modelled as `Except Exn` outcomes recorded
in an `Upstream` environment; an `.error` value models the call raising.
Mutation methods additionally return the list of upstream mutation calls
they issued, so that "no upstream call is made" is a provable statement. -/

/-- An upstream track object as `tidalapi` hands it over: `album` is
`none` when the attribute is missing or falsy, `duration` when the
attribute is missing. -/
structure RawTrack where
  id : Int
  name : String
  artists : List String
  album : Option String
  duration : Option Int
  deriving Repr, DecidableEq

/-- An upstream playlist record (`p.id`, `p.name`, `p.description`). -/
structure PlaylistInfo where
  id : String
  name : String
  description : String
  deriving Repr, DecidableEq

/-- The capability-bearing handle `playlist.factory()` returns.
`hasClear` models the duck-typed probe `hasattr(playlist, "clear")`
(true exactly for user-owned `UserPlaylist` objects); the `clear` field
is only reachable when `hasClear` is true.  `add` and `clear` are the
upstream mutation calls, `num_tracks` the track-count attribute. -/
structure PlaylistHandle where
  add : List Int → Except Exn Unit
  hasClear : Bool
  clear : Except Exn Bool
  num_tracks : Nat

/-- The `session.playlist(id)` object: listing its tracks, and the
`.factory()` conversion to the capability-bearing handle. -/
structure PlaylistObj where
  tracks : Except Exn (List RawTrack)
  factory : Except Exn PlaylistHandle

/-- One upstream API surface: each field is the outcome of the
corresponding `tidalapi` call on the authenticated session. -/
structure Upstream where
  favoritesTracks : Except Exn (List RawTrack)
  removeTrack : Int → Except Exn Unit
  userPlaylists : Except Exn (List PlaylistInfo)
  playlist : String → Except Exn PlaylistObj
  searchItems : String → Except Exn (List RawTrack)

/-- `TidalCollector.get_favorite_tracks` (the `silent` flag is the
constructor state): both branches are transcribed separately because the
source duplicates the dict-building loop per branch; neither branch has
an exception handler, so an upstream error propagates. -/
def get_favorite_tracks (silent : Bool) (up : Upstream) : Except Exn (List Track) :=
  if silent then
    match up.favoritesTracks with
    | .error e => .error e
    | .ok tracks =>
      .ok (tracks.map fun track =>
        { id := some track.id, title := track.name, artists := track.artists,
          album := track.album.getD "Unknown", duration := track.duration })
  else
    match up.favoritesTracks with
    | .error e => .error e
    | .ok tracks =>
      .ok (tracks.map fun track =>
        { id := some track.id, title := track.name, artists := track.artists,
          album := track.album.getD "Unknown", duration := track.duration })

/-- `TidalCollector.get_playlists`: no exception handler. -/
def get_playlists (up : Upstream) : Except Exn (List PlaylistInfo) :=
  match up.userPlaylists with
  | .error e => .error e
  | .ok playlists =>
    .ok (playlists.map fun p =>
      { id := p.id, name := p.name, description := p.description })

/-- `TidalCollector.get_playlist_tracks`: duplicated silent/progress
branches, no exception handler. -/
def get_playlist_tracks (silent : Bool) (up : Upstream) (playlist_id : String) :
    Except Exn (List Track) :=
  if silent then
    match up.playlist playlist_id with
    | .error e => .error e
    | .ok playlist =>
      match playlist.tracks with
      | .error e => .error e
      | .ok tracks =>
        .ok (tracks.map fun track =>
          { id := some track.id, title := track.name, artists := track.artists,
            album := track.album.getD "Unknown", duration := track.duration })
  else
    match up.playlist playlist_id with
    | .error e => .error e
    | .ok playlist =>
      match playlist.tracks with
      | .error e => .error e
      | .ok tracks =>
        .ok (tracks.map fun track =>
          { id := some track.id, title := track.name, artists := track.artists,
            album := track.album.getD "Unknown", duration := track.duration })

/-- `TidalCollector._format_track_results`. -/
def format_track_results (tracks : List RawTrack) : List Track :=
  tracks.map fun track =>
    { id := some track.id, title := track.name, artists := track.artists,
      album := track.album.getD "Unknown", duration := track.duration }

/-- `TidalCollector.search_tracks`: both branches slice to `limit` and
normalize through `_format_track_results`; no exception handler. -/
def search_tracks (silent : Bool) (up : Upstream) (query : String) (limit : Nat) :
    Except Exn (List Track) :=
  if silent then
    match up.searchItems query with
    | .error e => .error e
    | .ok tracks => .ok (format_track_results (tracks.take limit))
  else
    match up.searchItems query with
    | .error e => .error e
    | .ok tracks => .ok (format_track_results (tracks.take limit))

/-- `TidalCollector.get_playlist_by_id`: `session.playlist` then
`.factory()`, any exception caught and converted to `None`. -/
def get_playlist_by_id (up : Upstream) (playlist_id : String) : Option PlaylistHandle :=
  match up.playlist playlist_id with
  | .error _ => none
  | .ok playlist =>
    match playlist.factory with
    | .error _ => none
    | .ok handle => some handle

/-- `TidalCollector.add_tracks_to_playlist`.  Result: the returned
boolean, and the list of upstream `playlist.add` calls issued (each with
the id batch it carried).  Ids failing `int()` are skipped; an exception
from the single batched `add` is caught and yields `False`. -/
def add_tracks_to_playlist (up : Upstream) (playlist_id : String)
    (track_ids : List String) : Bool × List (List Int) :=
  match get_playlist_by_id up playlist_id with
  | none => (false, [])
  | some playlist =>
    let int_track_ids := track_ids.filterMap parseInt?
    if int_track_ids.isEmpty then (false, [])
    else
      match playlist.add int_track_ids with
      | .ok _ => (true, [int_track_ids])
      | .error _ => (false, [int_track_ids])

/-- The removal loop of `remove_all_favorite_tracks`: the final
`success_count`, and the ids on which `favorites.remove_track` was
attempted, in order.  Each iteration attempts the removal, counts a
success, and continues past an exception. -/
def removeLoop (up : Upstream) (tracks : List RawTrack) : Nat × List Int :=
  tracks.foldl
    (fun acc track =>
      match up.removeTrack track.id with
      | .ok _ => (acc.1 + 1, acc.2 ++ [track.id])
      | .error _ => (acc.1, acc.2 ++ [track.id]))
    (0, ([] : List Int))

/-- `TidalCollector.remove_all_favorite_tracks`.  Result: the returned
boolean (`success_count == len(tracks)`), and the attempted removal ids;
an empty favorites list short-circuits to `True`, and the fetch itself
raising is caught by the outer handler and yields `False`. -/
def remove_all_favorite_tracks (up : Upstream) : Bool × List Int :=
  match up.favoritesTracks with
  | .error _ => (false, [])
  | .ok tracks =>
    if tracks.isEmpty then (true, [])
    else ((removeLoop up tracks).1 == tracks.length, (removeLoop up tracks).2)

/-- `TidalCollector.clear_playlist`.  Result: the returned boolean, and
whether the upstream `playlist.clear()` call was issued. -/
def clear_playlist (up : Upstream) (playlist_id : String) : Bool × Bool :=
  match get_playlist_by_id up playlist_id with
  | none => (false, false)
  | some playlist =>
    if !playlist.hasClear then (false, false)
    else if playlist.num_tracks = 0 then (true, false)
    else
      match playlist.clear with
      | .ok success => (success, true)
      | .error _ => (false, true)

/-- `TidalCollector.reorder_playlist`: clear, then re-add in order;
fails fast when the clear fails, trivially succeeds on an empty id list. -/
def reorder_playlist (up : Upstream) (playlist_id : String)
    (track_ids : List String) : Bool :=
  if !(clear_playlist up playlist_id).1 then false
  else if track_ids.isEmpty then true
  else (add_tracks_to_playlist up playlist_id track_ids).1

/-- An upstream on which every API call raises the exception `e`. -/
def allFail (e : Exn) : Upstream where
  favoritesTracks := .error e
  removeTrack := fun _ => .error e
  userPlaylists := .error e
  playlist := fun _ => .error e
  searchItems := fun _ => .error e

theorem removeLoopAux (up : Upstream) (ts : List RawTrack) (c : Nat) (acc : List Int) :
    ts.foldl
      (fun acc track =>
        match up.removeTrack track.id with
        | .ok _ => (acc.1 + 1, acc.2 ++ [track.id])
        | .error _ => (acc.1, acc.2 ++ [track.id]))
      (c, acc)
    = (c + ts.countP (fun track => (up.removeTrack track.id).isOk),
       acc ++ ts.map fun track => track.id) := by
  induction ts generalizing c acc with
  | nil => simp
  | cons t ts ih =>
    simp only [List.foldl_cons, List.countP_cons, List.map_cons]
    cases h : up.removeTrack t.id with
    | ok u =>
      simp [ih, Except.isOk, Except.toBool]
      omega
    | error e =>
      simp [ih, Except.isOk, Except.toBool]

/-- The removal loop attempts every track id in order and counts exactly
the successful removals. -/
theorem removeLoop_eq (up : Upstream) (tracks : List RawTrack) :
    removeLoop up tracks =
      (tracks.countP fun track => (up.removeTrack track.id).isOk,
       tracks.map fun track => track.id) := by
  unfold removeLoop
  rw [removeLoopAux]
  simp

theorem remove_all_eq (up : Upstream) (tracks : List RawTrack)
    (hfav : up.favoritesTracks = .ok tracks) :
    remove_all_favorite_tracks up =
      if tracks.isEmpty then (true, [])
      else ((removeLoop up tracks).1 == tracks.length, (removeLoop up tracks).2) := by
  unfold remove_all_favorite_tracks
  rw [hfav]

theorem add_tracks_eq_none (up : Upstream) (playlist_id : String)
    (track_ids : List String) (h : get_playlist_by_id up playlist_id = none) :
    add_tracks_to_playlist up playlist_id track_ids = (false, []) := by
  unfold add_tracks_to_playlist
  rw [h]

theorem add_tracks_eq_some (up : Upstream) (playlist_id : String)
    (track_ids : List String) (playlist : PlaylistHandle)
    (h : get_playlist_by_id up playlist_id = some playlist) :
    add_tracks_to_playlist up playlist_id track_ids =
      (if (track_ids.filterMap parseInt?).isEmpty then (false, [])
       else
         match playlist.add (track_ids.filterMap parseInt?) with
         | .ok _ => (true, [track_ids.filterMap parseInt?])
         | .error _ => (false, [track_ids.filterMap parseInt?])) := by
  unfold add_tracks_to_playlist
  rw [h]

theorem clear_eq_none (up : Upstream) (playlist_id : String)
    (h : get_playlist_by_id up playlist_id = none) :
    clear_playlist up playlist_id = (false, false) := by
  unfold clear_playlist
  rw [h]

theorem clear_eq_some (up : Upstream) (playlist_id : String)
    (playlist : PlaylistHandle)
    (h : get_playlist_by_id up playlist_id = some playlist) :
    clear_playlist up playlist_id =
      (if !playlist.hasClear then (false, false)
       else if playlist.num_tracks = 0 then (true, false)
       else
         match playlist.clear with
         | .ok success => (success, true)
         | .error _ => (false, true)) := by
  unfold clear_playlist
  rw [h]

/-! ### Concrete environments used by witnesses and counterexamples -/

/-- A user-owned playlist handle whose upstream calls all succeed. -/
def okHandle : PlaylistHandle where
  add := fun _ => .ok ()
  hasClear := true
  clear := .ok true
  num_tracks := 2

/-- A handle lacking the owner-only `clear` capability. -/
def noClearHandle : PlaylistHandle where
  add := fun _ => .ok ()
  hasClear := false
  clear := .ok true
  num_tracks := 2

/-- A user-owned handle on an already-empty playlist. -/
def emptyHandle : PlaylistHandle where
  add := fun _ => .ok ()
  hasClear := true
  clear := .ok true
  num_tracks := 0

/-- An upstream whose every call succeeds and whose playlist lookup
resolves to `okHandle`. -/
def upOk : Upstream where
  favoritesTracks := .ok []
  removeTrack := fun _ => .ok ()
  userPlaylists := .ok []
  playlist := fun _ => .ok { tracks := .ok [], factory := .ok okHandle }
  searchItems := fun _ => .ok []

/-- An upstream with two favorited tracks whose second removal raises. -/
def upPartial : Upstream where
  favoritesTracks := .ok
    [{ id := 1, name := "a", artists := [], album := none, duration := none },
     { id := 2, name := "b", artists := [], album := none, duration := none }]
  removeTrack := fun i => if i = 1 then .ok () else .error "Failed to remove"
  userPlaylists := .ok []
  playlist := fun _ => .error "Playlist not found"
  searchItems := fun _ => .ok []

/-- An upstream resolving every playlist to `noClearHandle`. -/
def upNoClear : Upstream where
  favoritesTracks := .ok []
  removeTrack := fun _ => .ok ()
  userPlaylists := .ok []
  playlist := fun _ => .ok { tracks := .ok [], factory := .ok noClearHandle }
  searchItems := fun _ => .ok []

/-- An upstream resolving every playlist to `emptyHandle`. -/
def upEmptyPl : Upstream where
  favoritesTracks := .ok []
  removeTrack := fun _ => .ok ()
  userPlaylists := .ok []
  playlist := fun _ => .ok { tracks := .ok [], factory := .ok emptyHandle }
  searchItems := fun _ => .ok []

/-! ### The claims -/

/-- C1 (amended): for every non-empty track list and every written field
list that contains both `id` and `title`, writing then reading succeeds
and reproduces each included field (modulo the artist join/split-strip
and decimal render/parse normalization packaged in `readback`) and each
excluded field as its default.  The claim as frozen fails for field sets
missing `id` or `title` (the loader raises `ValueError`) and for the
empty track list (nothing is written, so the read raises
`FileNotFoundError`); see the counterexample. -/
theorem csv_write_read_round_trip (tracks : List Track) (fields : List String)
    (prev : Option CsvFile) (hne : tracks ≠ [])
    (hid : "id" ∈ fields) (htitle : "title" ∈ fields) :
    load_tracks_from_csv (write_csv_format tracks fields prev)
      = .ok (tracks.map (readback fields)) :=
  csv_round_trip tracks fields prev hne hid htitle

/-- C1 counterexample: with the non-empty field subset `["album"]` the
read of the written file raises `ValueError` instead of returning the
excluded fields' defaults; and after writing the empty track sequence the
read raises `FileNotFoundError`. -/
theorem csv_round_trip_counterexample :
    load_tracks_from_csv (write_csv_format
        [{ id := some 1, title := "t", artists := [], album := "a", duration := none }]
        ["album"] none)
      = .error (.invalidFormat (requiredColumnsMsg ["album"])) ∧
    load_tracks_from_csv (write_csv_format ([] : List Track) ["id", "title"] none)
      = .error .notFound :=
  ⟨by decide, by decide⟩

/-- C1 witness: the round trip evaluated at one concrete track and the
full field set, where the normalization is the identity. -/
theorem csv_write_read_round_trip_witness :
    load_tracks_from_csv (write_csv_format
        [{ id := some 123, title := "Song, A", artists := ["A", "B"],
           album := "Al", duration := some 65 }]
        ["id", "title", "artists", "album", "duration"] none)
      = .ok [readback ["id", "title", "artists", "album", "duration"]
          { id := some 123, title := "Song, A", artists := ["A", "B"],
            album := "Al", duration := some 65 }] ∧
    readback ["id", "title", "artists", "album", "duration"]
        { id := some 123, title := "Song, A", artists := ["A", "B"],
          album := "Al", duration := some 65 }
      = { id := some 123, title := "Song, A", artists := ["A", "B"],
          album := "Al", duration := some 65 } :=
  ⟨csv_write_read_round_trip _ _ none (by decide) (by decide) (by decide), by decide⟩

/-- C2 (amended): the mutation methods (`add_tracks_to_playlist`,
`remove_all_favorite_tracks`, `clear_playlist`, `reorder_playlist`)
convert any upstream exception into the boolean `false`, but the read
fetch methods (`get_favorite_tracks`, `get_playlists`,
`get_playlist_tracks`, `search_tracks`) have no exception handler and
propagate the upstream exception to their caller. -/
theorem collector_exception_boundary (e : Exn) (silent : Bool)
    (playlist_id query : String) (limit : Nat) (track_ids : List String) :
    get_favorite_tracks silent (allFail e) = .error e ∧
    get_playlists (allFail e) = .error e ∧
    get_playlist_tracks silent (allFail e) playlist_id = .error e ∧
    search_tracks silent (allFail e) query limit = .error e ∧
    (add_tracks_to_playlist (allFail e) playlist_id track_ids).1 = false ∧
    (remove_all_favorite_tracks (allFail e)).1 = false ∧
    (clear_playlist (allFail e) playlist_id).1 = false ∧
    reorder_playlist (allFail e) playlist_id track_ids = false := by
  cases silent <;> exact ⟨rfl, rfl, rfl, rfl, rfl, rfl, rfl, rfl⟩

/-- C2 counterexample: `get_favorite_tracks` propagates an upstream
exception instead of converting it into an empty result. -/
theorem collector_exception_counterexample :
    get_favorite_tracks true (allFail "API error") = .error "API error" := rfl

/-- C3: `add_tracks_to_playlist` fails with no upstream call when the
playlist does not resolve or when no supplied id survives `int()`
coercion; otherwise it issues exactly one batched `add` call holding
precisely the coerced ids in input order, returns `true` exactly when
that call does not raise, and `false` when it raises. -/
theorem add_tracks_to_playlist_spec (up : Upstream) (playlist_id : String)
    (track_ids : List String) :
    (get_playlist_by_id up playlist_id = none →
      add_tracks_to_playlist up playlist_id track_ids = (false, [])) ∧
    ∀ playlist, get_playlist_by_id up playlist_id = some playlist →
      (track_ids.filterMap parseInt? = [] →
        add_tracks_to_playlist up playlist_id track_ids = (false, [])) ∧
      ∀ ids, track_ids.filterMap parseInt? = ids → ids ≠ [] →
        (add_tracks_to_playlist up playlist_id track_ids).2 = [ids] ∧
        ((add_tracks_to_playlist up playlist_id track_ids).1 = true ↔
          ∃ u, playlist.add ids = .ok u) := by
  refine ⟨add_tracks_eq_none up playlist_id track_ids, ?_⟩
  intro playlist h
  constructor
  · intro hids
    rw [add_tracks_eq_some up playlist_id track_ids playlist h, hids]
    rfl
  · intro ids hids hne
    rw [add_tracks_eq_some up playlist_id track_ids playlist h, hids,
      if_neg (by simpa using hne)]
    cases hadd : playlist.add ids with
    | ok u => exact ⟨rfl, by simp [hadd]⟩
    | error e => exact ⟨rfl, by simp [hadd]⟩

/-- C3 witness: the spec's example `["123", "invalid", "456"]` issues one
batched add call carrying exactly `[123, 456]` and returns `true`. -/
theorem add_tracks_to_playlist_witness :
    (add_tracks_to_playlist upOk "p1" ["123", "invalid", "456"]).2 = [[123, 456]] ∧
    (add_tracks_to_playlist upOk "p1" ["123", "invalid", "456"]).1 = true := by
  have h := ((add_tracks_to_playlist_spec upOk "p1" ["123", "invalid", "456"]).2
    okHandle (by simp [get_playlist_by_id, upOk])).2 [123, 456] (by decide) (by decide)
  exact ⟨h.1, h.2.mpr ⟨(), rfl⟩⟩

/-- C4: `remove_all_favorite_tracks` returns `true` with no removal
attempt when the favorites list is empty; otherwise it attempts the
removal of every favorited track in order, never short-circuiting on a
failure, and returns `true` exactly when every removal succeeded. -/
theorem remove_all_favorite_tracks_spec (up : Upstream) (tracks : List RawTrack)
    (hfav : up.favoritesTracks = .ok tracks) :
    (tracks = [] → remove_all_favorite_tracks up = (true, [])) ∧
    (remove_all_favorite_tracks up).2 = (tracks.map fun track => track.id) ∧
    ((remove_all_favorite_tracks up).1 = true ↔
      ∀ track ∈ tracks, (up.removeTrack track.id).isOk = true) := by
  rw [remove_all_eq up tracks hfav, removeLoop_eq]
  by_cases h : tracks.isEmpty
  · have : tracks = [] := by simpa using h
    subst this
    simp
  · rw [if_neg h]
    refine ⟨fun hc => absurd hc (by simpa using h), rfl, ?_⟩
    show ((tracks.countP fun track => (up.removeTrack track.id).isOk)
        == tracks.length) = true ↔ _
    simp only [beq_iff_eq, List.countP_eq_length]

/-- C4 witness: over two favorited tracks whose second removal raises,
removal is attempted on both ids and the aggregate result is `false`. -/
theorem remove_all_favorite_tracks_witness :
    (remove_all_favorite_tracks upPartial).2 = [1, 2] ∧
    (remove_all_favorite_tracks upPartial).1 = false := by
  have h := remove_all_favorite_tracks_spec upPartial
    [{ id := 1, name := "a", artists := [], album := none, duration := none },
     { id := 2, name := "b", artists := [], album := none, duration := none }] rfl
  refine ⟨by simpa using h.2.1, ?_⟩
  cases hv : (remove_all_favorite_tracks upPartial).1 with
  | false => rfl
  | true =>
    have h2 := (h.2.2.mp hv)
      { id := 2, name := "b", artists := [], album := none, duration := none }
      (by simp)
    simp [upPartial, Except.isOk, Except.toBool] at h2

/-- C5: `clear_playlist` returns `false` when the playlist does not
resolve; returns `false` without invoking `clear` when the handle lacks
the owner-only capability; returns `true` without invoking `clear` on an
owned playlist with zero tracks; otherwise returns the outcome of the
upstream `clear` call (`false` when it raises). -/
theorem clear_playlist_spec (up : Upstream) (playlist_id : String) :
    (get_playlist_by_id up playlist_id = none →
      clear_playlist up playlist_id = (false, false)) ∧
    ∀ playlist, get_playlist_by_id up playlist_id = some playlist →
      (playlist.hasClear = false → clear_playlist up playlist_id = (false, false)) ∧
      (playlist.hasClear = true → playlist.num_tracks = 0 →
        clear_playlist up playlist_id = (true, false)) ∧
      (playlist.hasClear = true → playlist.num_tracks ≠ 0 →
        clear_playlist up playlist_id =
          ((match playlist.clear with
            | .ok success => success
            | .error _ => false), true)) := by
  refine ⟨clear_eq_none up playlist_id, ?_⟩
  intro playlist h
  refine ⟨?_, ?_, ?_⟩
  · intro hcap
    rw [clear_eq_some up playlist_id playlist h, hcap]
    rfl
  · intro hcap hzero
    rw [clear_eq_some up playlist_id playlist h, hcap, hzero]
    rfl
  · intro hcap hnz
    rw [clear_eq_some up playlist_id playlist h, hcap,
      if_neg (by simp), if_neg hnz]
    cases playlist.clear with
    | ok success => rfl
    | error e => rfl

/-- C5 witness: a handle without the clear capability yields `(false, no
call)`; an owned empty playlist yields `(true, no call)`. -/
theorem clear_playlist_witness :
    clear_playlist upNoClear "p" = (false, false) ∧
    clear_playlist upEmptyPl "p" = (true, false) :=
  ⟨((clear_playlist_spec upNoClear "p").2 noClearHandle rfl).1 rfl,
   ((clear_playlist_spec upEmptyPl "p").2 emptyHandle rfl).2.1 rfl rfl⟩

/-- C10: for every upstream response, the silent and non-silent code
paths of `get_favorite_tracks`, `get_playlist_tracks` and `search_tracks`
return the same value; the branches differ only in progress output. -/
theorem silent_branches_agree (up : Upstream) (playlist_id query : String)
    (limit : Nat) :
    get_favorite_tracks true up = get_favorite_tracks false up ∧
    get_playlist_tracks true up playlist_id = get_playlist_tracks false up playlist_id ∧
    search_tracks true up query limit = search_tracks false up query limit :=
  ⟨rfl, rfl, rfl⟩

/-- C6: reading a missing file raises `FileNotFoundError`; reading any
file whose header lacks `id` or `title` raises `ValueError` with the
message that names both expected column names. -/
theorem load_error_spec :
    load_tracks_from_csv none = .error .notFound ∧
    ∀ f : CsvFile, ¬ ("id" ∈ f.header ∧ "title" ∈ f.header) →
      load_tracks_from_csv (some f)
        = .error (.invalidFormat (requiredColumnsMsg f.header)) ∧
      ∃ rest, requiredColumnsMsg f.header
        = "CSV must contain at least " ++ "'id'" ++ " and " ++ "'title'"
          ++ " columns. Found: " ++ rest := by
  refine ⟨rfl, fun f h => ⟨?_, ⟨String.intercalate ", " f.header, rfl⟩⟩⟩
  show (if "id" ∈ f.header ∧ "title" ∈ f.header then f.rows.mapM (loadRow f.header)
    else .error (.invalidFormat (requiredColumnsMsg f.header)))
    = .error (.invalidFormat (requiredColumnsMsg f.header))
  rw [if_neg h]

/-- C6 witness: a file whose single column is `album`. -/
theorem load_error_spec_witness :
    load_tracks_from_csv (some ⟨["album"], []⟩)
      = .error (.invalidFormat (requiredColumnsMsg ["album"])) ∧
    ∃ rest, requiredColumnsMsg ["album"]
      = "CSV must contain at least " ++ "'id'" ++ " and " ++ "'title'"
        ++ " columns. Found: " ++ rest :=
  load_error_spec.2 ⟨["album"], []⟩ (by decide)

/-- C7: `format_duration` maps absence to `"Unknown"`, matches the
spec's sample values, renders `divmod(seconds, 60)` with the seconds part
zero-padded to exactly two digits, and is monotonic on non-negative
inputs read as a minutes/seconds pair. -/
theorem format_duration_spec :
    format_duration none = "Unknown" ∧
    format_duration (some 0) = "0:00" ∧
    format_duration (some 65) = "1:05" ∧
    format_duration (some 3661) = "61:01" ∧
    ∀ s t : Int, 0 ≤ s → s ≤ t →
      format_duration (some s) = renderInt (s / 60) ++ ":" ++ pad2 (s % 60) ∧
      (pad2 (s % 60)).length = 2 ∧
      (s / 60 < t / 60 ∨ (s / 60 = t / 60 ∧ s % 60 ≤ t % 60)) := by
  refine ⟨rfl, by decide, by decide, by decide, ?_⟩
  intro s t hs hst
  refine ⟨rfl, ?_, by omega⟩
  have h1 : 0 ≤ s % 60 := by omega
  have h2 : s % 60 < 60 := by omega
  generalize hm : s % 60 = m
  rw [hm] at h1 h2
  interval_cases m <;> decide

/-- C7 witness: the parametric clause evaluated at 60 ≤ 125. -/
theorem format_duration_spec_witness :
    format_duration (some 60) = renderInt ((60 : Int) / 60) ++ ":" ++ pad2 ((60 : Int) % 60) ∧
    (pad2 ((60 : Int) % 60)).length = 2 ∧
    ((60 : Int) / 60 < (125 : Int) / 60 ∨
      ((60 : Int) / 60 = (125 : Int) / 60 ∧ (60 : Int) % 60 ≤ (125 : Int) % 60)) :=
  format_duration_spec.2.2.2.2 60 125 (by decide) (by decide)

/-- C8: writing an empty track sequence performs no filesystem write:
the file at the target path (existing or absent) is left exactly as it
was, both through `_write_csv_format` and through `save_tracks_to_file`
with any field selection. -/
theorem write_empty_no_file_effect (fields : List String)
    (csv_fields : Option (List String)) (prev : Option CsvFile) :
    write_csv_format [] fields prev = prev ∧
    save_tracks_to_file [] csv_fields prev = prev :=
  ⟨rfl, rfl⟩

/-- C9: under a header containing `id` and `title`, a data row whose
`id` cell is the empty string loads without error into a track whose id
is `none`; an empty `duration` cell likewise parses to `none`. -/
theorem load_empty_cells_spec :
    (∀ header row dur, "id" ∈ header → "title" ∈ header →
      lookupCell header row "id" = some "" →
      parseCell header row "duration" = .ok dur →
      ∃ t, load_tracks_from_csv (some ⟨header, [row]⟩) = .ok [t] ∧
        t.id = none ∧ t.duration = dur) ∧
    (∀ header row, lookupCell header row "duration" = some "" →
      parseCell header row "duration" = .ok none) := by
  constructor
  · intro header row dur hid htitle hcell hdur
    refine ⟨{ id := none,
              title := (lookupCell header row "title").getD "",
              artists := match lookupCell header row "artists" with
                         | none => []
                         | some s => loadArtists s,
              album := (lookupCell header row "album").getD "",
              duration := dur }, ?_, rfl, rfl⟩
    have hpid : parseCell header row "id" = .ok none := by
      unfold parseCell
      rw [hcell]
      simp
    have hrow : loadRow header row = .ok
        { id := none,
          title := (lookupCell header row "title").getD "",
          artists := match lookupCell header row "artists" with
                     | none => []
                     | some s => loadArtists s,
          album := (lookupCell header row "album").getD "",
          duration := dur } := by
      unfold loadRow
      rw [hpid, hdur]
    show (if "id" ∈ header ∧ "title" ∈ header then [row].mapM (loadRow header)
      else .error (.invalidFormat (requiredColumnsMsg header))) = _
    rw [if_pos ⟨hid, htitle⟩]
    simp [List.mapM, List.mapM.loop, hrow]
  · intro header row hcell
    unfold parseCell
    rw [hcell]
    simp

/-- C9 witness: the header `id, title, duration` with the row whose `id`
and `duration` cells are empty. -/
theorem load_empty_cells_witness :
    (∃ t, load_tracks_from_csv (some ⟨["id", "title", "duration"], [["", "x", ""]]⟩)
      = .ok [t] ∧ t.id = none ∧ t.duration = none) ∧
    parseCell ["id", "title", "duration"] ["", "x", ""] "duration" = .ok none :=
  ⟨load_empty_cells_spec.1 ["id", "title", "duration"] ["", "x", ""] none
      (by decide) (by decide) (by decide)
      (load_empty_cells_spec.2 ["id", "title", "duration"] ["", "x", ""] (by decide)),
   load_empty_cells_spec.2 ["id", "title", "duration"] ["", "x", ""] (by decide)⟩

end TidalExtractor
